import Mathlib

/-!
Verification of the snap.pong game core (src/2.0.py).

The game's update operations are shallowly embedded as pure functions on an
explicit `PingPongGame` state record.  Geometry is integer-valued (pygame
`Rect` stores integers); ball velocities are rational (the source mixes the
integer speeds with float scaling factors and a float speed clamp), and the
speed-magnitude clamp of `update_ball` (lines 374-382) is modelled over the
reals, since it divides by a square root.  The two `random.choice` sign draws
of `reset_ball` are passed in as explicit boolean parameters; Python's `int()`
truncation toward zero is modelled by `pyInt`.
-/

namespace SnapPong

/-- Sides of the field, the strings "left" and "right" in the source. -/
inductive Side where
  | left
  | right
deriving DecidableEq

/-- The `PowerUpType` enumeration (src/2.0.py lines 65-70). -/
inductive PowerUpType where
  | SPEED_BOOST
  | SLOW_AI
  | BIG_PADDLE
  | FAST_BALL
deriving DecidableEq

/-- The `GameState` phase enumeration (src/2.0.py lines 73-78). -/
inductive GameState where
  | START_SCREEN
  | PLAYING
  | PAUSED
  | GAME_OVER
deriving DecidableEq

namespace GameConfig

/-- src/2.0.py line 16. -/
def WINDOW_WIDTH : ℤ := 800

/-- src/2.0.py line 17. -/
def WINDOW_HEIGHT : ℤ := 500

/-- src/2.0.py line 41. -/
def PADDLE_HEIGHT : ℤ := 80

/-- src/2.0.py line 42. -/
def PADDLE_SPEED : ℤ := 10

/-- src/2.0.py line 47. -/
def BALL_SIZE : ℤ := 15

/-- src/2.0.py line 48. -/
def BALL_INITIAL_SPEED : ℤ := 8

/-- src/2.0.py line 49. -/
def MAX_BALL_SPEED : ℤ := 15

/-- src/2.0.py lines 52-56: `AI_DIFFICULTY = {1: 3, 2: 4, 3: 6}`. -/
def AI_DIFFICULTY : ℕ → ℕ
  | 1 => 3
  | 2 => 4
  | 3 => 6
  | _ => 0

/-- src/2.0.py line 61: power-up duration in frames. -/
def POWERUP_DURATION : ℕ := 180

/-- src/2.0.py line 62: falling speed of a power-up. -/
def POWERUP_SPEED : ℤ := 2

end GameConfig

/-- Python's `int()` on a rational value: truncation toward zero. -/
def pyInt (q : ℚ) : ℤ := if q < 0 then ⌈q⌉ else ⌊q⌋

/-- The `PowerUp` entity (src/2.0.py lines 81-99): position, type and the
`collected` flag.  `rect` mirrors (x, y), so it is not stored twice. -/
structure PowerUp where
  x : ℤ
  y : ℤ
  ptype : PowerUpType
  collected : Bool
deriving DecidableEq

/-- The mutable state of `PingPongGame` (src/2.0.py lines 120-167), restricted
to the fields the update loop reads or writes.  Paddles are pygame `Rect`s in
the source whose `x` and `width` are never modified, so only `y` and `height`
are kept; `active_powerups` is the `{player: {type: frames_remaining}}`
dictionary of line 161, modelled as a total function into `Option ℕ` (absent
key = `none`). -/
structure PingPongGame where
  left_paddle_y : ℤ
  left_paddle_height : ℤ
  right_paddle_y : ℤ
  right_paddle_height : ℤ
  ball_x : ℤ
  ball_y : ℤ
  ball_speed_x : ℚ
  ball_speed_y : ℚ
  left_score : ℤ
  right_score : ℤ
  rally_count : ℤ
  longest_rally : ℤ
  left_rallies_won : ℤ
  right_rallies_won : ℤ
  ai_speed : ℕ
  win_score : ℤ
  is_two_player : Bool
  current_difficulty : ℕ
  state : GameState
  powerups : List PowerUp
  active_powerups : Side → PowerUpType → Option ℕ

/-- Height of the paddle on side `p`. -/
def side_height (g : PingPongGame) : Side → ℤ
  | Side.left => g.left_paddle_height
  | Side.right => g.right_paddle_height

/-- The state built by `__init__` (src/2.0.py lines 120-167): paddles centered
(`_create_left_paddle`/`_create_right_paddle`, lines 169-187), ball a `Rect`
at (WINDOW_WIDTH // 2, WINDOW_HEIGHT // 2) with random sign speeds
(`_create_ball`, lines 189-199), medium difficulty, win score 5. -/
def init_game (sx sy : Bool) : PingPongGame :=
  { left_paddle_y := GameConfig.WINDOW_HEIGHT / 2 - GameConfig.PADDLE_HEIGHT / 2
    left_paddle_height := GameConfig.PADDLE_HEIGHT
    right_paddle_y := GameConfig.WINDOW_HEIGHT / 2 - GameConfig.PADDLE_HEIGHT / 2
    right_paddle_height := GameConfig.PADDLE_HEIGHT
    ball_x := GameConfig.WINDOW_WIDTH / 2
    ball_y := GameConfig.WINDOW_HEIGHT / 2
    ball_speed_x := if sx then (GameConfig.BALL_INITIAL_SPEED : ℚ) else -(GameConfig.BALL_INITIAL_SPEED : ℚ)
    ball_speed_y := if sy then (GameConfig.BALL_INITIAL_SPEED : ℚ) else -(GameConfig.BALL_INITIAL_SPEED : ℚ)
    left_score := 0
    right_score := 0
    rally_count := 0
    longest_rally := 0
    left_rallies_won := 0
    right_rallies_won := 0
    ai_speed := GameConfig.AI_DIFFICULTY 2
    win_score := 5
    is_two_player := false
    current_difficulty := 2
    state := GameState.START_SCREEN
    powerups := []
    active_powerups := fun _ _ => none }

/-- `reset_ball` (src/2.0.py lines 201-208): re-center the ball and
re-randomize both velocity components.  Setting `rect.center` places
`x` at `center - size // 2`; the two `random.choice` sign draws are the
parameters `sx`, `sy`. -/
def reset_ball (sx sy : Bool) (g : PingPongGame) : PingPongGame :=
  { g with
    ball_x := GameConfig.WINDOW_WIDTH / 2 - GameConfig.BALL_SIZE / 2
    ball_y := GameConfig.WINDOW_HEIGHT / 2 - GameConfig.BALL_SIZE / 2
    ball_speed_x := if sx then (GameConfig.BALL_INITIAL_SPEED : ℚ) else -(GameConfig.BALL_INITIAL_SPEED : ℚ)
    ball_speed_y := if sy then (GameConfig.BALL_INITIAL_SPEED : ℚ) else -(GameConfig.BALL_INITIAL_SPEED : ℚ) }

/-- `reset_game` (src/2.0.py lines 210-221): zero the scores and rally stats,
clear power-ups and active effects, reset the ball, enter PLAYING. -/
def reset_game (sx sy : Bool) (g : PingPongGame) : PingPongGame :=
  { reset_ball sx sy
      { g with
        left_score := 0
        right_score := 0
        rally_count := 0
        longest_rally := 0
        left_rallies_won := 0
        right_rallies_won := 0
        powerups := []
        active_powerups := fun _ _ => none } with
    state := GameState.PLAYING }

/-- Win-score increment (src/2.0.py line 274): `min(self.win_score + 1, 20)`. -/
def increment_win_score (g : PingPongGame) : PingPongGame :=
  { g with win_score := min (g.win_score + 1) 20 }

/-- Win-score decrement (src/2.0.py line 277): `max(self.win_score - 1, 1)`. -/
def decrement_win_score (g : PingPongGame) : PingPongGame :=
  { g with win_score := max (g.win_score - 1) 1 }

/-- First half of `move_player` (src/2.0.py lines 285-286): W key moves the
left paddle up, only when its top is strictly above 0. -/
def move_player_up (kW : Bool) (g : PingPongGame) : PingPongGame :=
  if kW ∧ 0 < g.left_paddle_y then
    { g with left_paddle_y := g.left_paddle_y - GameConfig.PADDLE_SPEED }
  else g

/-- Second half of `move_player` (src/2.0.py lines 287-288): S key moves the
left paddle down, only when its bottom is strictly below the window height;
the bottom is re-read after the W move, as in the source. -/
def move_player_down (kS : Bool) (g : PingPongGame) : PingPongGame :=
  if kS ∧ g.left_paddle_y + g.left_paddle_height < GameConfig.WINDOW_HEIGHT then
    { g with left_paddle_y := g.left_paddle_y + GameConfig.PADDLE_SPEED }
  else g

/-- `move_player` (src/2.0.py lines 282-288). -/
def move_player (kW kS : Bool) (g : PingPongGame) : PingPongGame :=
  move_player_down kS (move_player_up kW g)

/-- Up half of `move_right_player` (src/2.0.py lines 293-294). -/
def move_right_player_up (kU : Bool) (g : PingPongGame) : PingPongGame :=
  if kU ∧ 0 < g.right_paddle_y then
    { g with right_paddle_y := g.right_paddle_y - GameConfig.PADDLE_SPEED }
  else g

/-- Down half of `move_right_player` (src/2.0.py lines 295-296). -/
def move_right_player_down (kD : Bool) (g : PingPongGame) : PingPongGame :=
  if kD ∧ g.right_paddle_y + g.right_paddle_height < GameConfig.WINDOW_HEIGHT then
    { g with right_paddle_y := g.right_paddle_y + GameConfig.PADDLE_SPEED }
  else g

/-- `move_right_player` (src/2.0.py lines 290-296). -/
def move_right_player (kU kD : Bool) (g : PingPongGame) : PingPongGame :=
  move_right_player_down kD (move_right_player_up kU g)

/-- The AI speed actually used by `move_ai` (src/2.0.py lines 304-306):
`ai_speed`, halved (floor, minimum 1) when the RIGHT side's active-effect
dictionary contains a SLOW_AI entry. -/
def ai_current_speed (g : PingPongGame) : ℕ :=
  if (g.active_powerups Side.right PowerUpType.SLOW_AI).isSome then
    max 1 (g.ai_speed / 2)
  else g.ai_speed

/-- `move_ai` (src/2.0.py lines 298-311): move the right paddle one step of
`ai_current_speed` toward the ball's vertical center, with pre-move boundary
checks (`bottom < WINDOW_HEIGHT` before moving down, `top > 0` before moving
up).  Centers use Python floor division by 2 on the heights. -/
def move_ai (g : PingPongGame) : PingPongGame :=
  if g.right_paddle_y + g.right_paddle_height / 2 < g.ball_y + GameConfig.BALL_SIZE / 2 ∧
      g.right_paddle_y + g.right_paddle_height < GameConfig.WINDOW_HEIGHT then
    { g with right_paddle_y := g.right_paddle_y + (ai_current_speed g : ℤ) }
  else if g.ball_y + GameConfig.BALL_SIZE / 2 < g.right_paddle_y + g.right_paddle_height / 2 ∧
      0 < g.right_paddle_y then
    { g with right_paddle_y := g.right_paddle_y - (ai_current_speed g : ℤ) }
  else g

/-- The paddle height set by a SPEED_BOOST collection (src/2.0.py lines
328/330): `min(PADDLE_HEIGHT + 30, int(PADDLE_HEIGHT * 1.5))`. -/
def boost_height : ℤ :=
  min (GameConfig.PADDLE_HEIGHT + 30) (pyInt ((GameConfig.PADDLE_HEIGHT : ℚ) * 1.5))

/-- The paddle height set by a BIG_PADDLE collection (src/2.0.py lines
334/336): `int(PADDLE_HEIGHT * 1.3)`. -/
def big_height : ℤ := pyInt ((GameConfig.PADDLE_HEIGHT : ℚ) * 1.3)

/-- `activate_powerup` (src/2.0.py lines 321-345).  SPEED_BOOST and BIG_PADDLE
set the receiving side's paddle height to an absolute value computed from the
base height; SLOW_AI changes nothing immediately (the `player == "left"`
branch is `pass`, other sides fall through); FAST_BALL scales both ball
velocity components by 1.3 with `int()` truncation.  Line 345 then
unconditionally stores the full duration under (player, type). -/
def activate_powerup (p : Side) (t : PowerUpType) (g : PingPongGame) : PingPongGame :=
  let g1 :=
    match t with
    | PowerUpType.SPEED_BOOST =>
        if p = Side.left then
          { g with left_paddle_height := boost_height }
        else
          { g with right_paddle_height := boost_height }
    | PowerUpType.BIG_PADDLE =>
        if p = Side.left then
          { g with left_paddle_height := big_height }
        else
          { g with right_paddle_height := big_height }
    | PowerUpType.SLOW_AI => g
    | PowerUpType.FAST_BALL =>
        { g with
          ball_speed_x := (pyInt (g.ball_speed_x * 1.3) : ℚ)
          ball_speed_y := (pyInt (g.ball_speed_y * 1.3) : ℚ) }
  { g1 with active_powerups := fun p' t' =>
      if p' = p ∧ t' = t then some GameConfig.POWERUP_DURATION else g1.active_powerups p' t' }

/-- One countdown step of an active-effect entry (src/2.0.py lines 351-354):
decrement, and drop the entry when the decremented value is `<= 0`. -/
def tick_effect : Option ℕ → Option ℕ
  | some d => if d ≤ 1 then none else some (d - 1)
  | none => none

/-- Whether an entry will be removed by the current `update_powerups` call. -/
def will_expire : Option ℕ → Bool
  | some d => decide (d ≤ 1)
  | none => false

/-- Whether one of the two paddle-size effect types of side `p` expires in the
current `update_powerups` call (src/2.0.py line 360). -/
def expired_size_effect (g : PingPongGame) (p : Side) : Bool :=
  will_expire (g.active_powerups p PowerUpType.SPEED_BOOST) ||
  will_expire (g.active_powerups p PowerUpType.BIG_PADDLE)

/-- `PowerUp.update` (src/2.0.py lines 92-99): fall by POWERUP_SPEED, flag as
collected when past the bottom boundary. -/
def powerup_fall (pu : PowerUp) : PowerUp :=
  { pu with
    y := pu.y + GameConfig.POWERUP_SPEED
    collected := pu.collected || decide (GameConfig.WINDOW_HEIGHT < pu.y + GameConfig.POWERUP_SPEED) }

/-- `update_powerups` (src/2.0.py lines 347-370): decrement every active
effect and remove the expired ones; when an expired entry is SPEED_BOOST or
BIG_PADDLE, reset that side's paddle height to the base height; finally move
every falling power-up and drop the collected ones. -/
def update_powerups (g : PingPongGame) : PingPongGame :=
  { g with
    active_powerups := fun p t => tick_effect (g.active_powerups p t)
    left_paddle_height :=
      if expired_size_effect g Side.left then GameConfig.PADDLE_HEIGHT else g.left_paddle_height
    right_paddle_height :=
      if expired_size_effect g Side.right then GameConfig.PADDLE_HEIGHT else g.right_paddle_height
    powerups := (g.powerups.map powerup_fall).filter (fun pu => ! pu.collected) }

/-- The scoring block at the end of `update_ball` (src/2.0.py lines 420-433):
if the ball's left edge reached 0, the right side scores and the ball is
reset; then, on the (possibly reset) ball, if the right edge reached the
window width, the left side scores and the ball is reset.  `sx`, `sy` are the
random sign draws of whichever `reset_ball` call runs. -/
def update_ball_scoring (sx sy : Bool) (g : PingPongGame) : PingPongGame :=
  let g1 :=
    if g.ball_x ≤ 0 then
      reset_ball sx sy
        { g with
          right_score := g.right_score + 1
          longest_rally := max g.longest_rally g.rally_count
          right_rallies_won := g.right_rallies_won + 1
          rally_count := 0 }
    else g
  if GameConfig.WINDOW_WIDTH ≤ g1.ball_x + GameConfig.BALL_SIZE then
    reset_ball sx sy
      { g1 with
        left_score := g1.left_score + 1
        longest_rally := max g1.longest_rally g1.rally_count
        left_rallies_won := g1.left_rallies_won + 1
        rally_count := 0 }
  else g1

/-- The speed magnitude computed at src/2.0.py line 378. -/
noncomputable def speed_magnitude (vx vy : ℝ) : ℝ := Real.sqrt (vx ^ 2 + vy ^ 2)

/-- The speed clamp of `update_ball` (src/2.0.py lines 377-382): when the
magnitude exceeds MAX_BALL_SPEED, rescale both components by
MAX_BALL_SPEED / magnitude; otherwise leave the velocity unchanged. -/
noncomputable def clamp_ball_speed (vx vy : ℝ) : ℝ × ℝ :=
  if speed_magnitude vx vy > (GameConfig.MAX_BALL_SPEED : ℝ) then
    (vx * ((GameConfig.MAX_BALL_SPEED : ℝ) / speed_magnitude vx vy),
     vy * ((GameConfig.MAX_BALL_SPEED : ℝ) / speed_magnitude vx vy))
  else (vx, vy)

/-- The integration step of `update_ball` (src/2.0.py lines 372-382): advance
the position by the velocity, then clamp the velocity's magnitude.  Returns
(new position, new velocity). -/
noncomputable def integrate_ball (x y vx vy : ℝ) : (ℝ × ℝ) × (ℝ × ℝ) :=
  ((x + vx, y + vy), clamp_ball_speed vx vy)

/-! ## Concrete states used by counterexamples and witnesses -/

/-- A state during play with a SLOW_AI effect recorded for the LEFT side
(as `activate_powerup "left"` records it), medium AI speed 4. -/
def slow_left_state : PingPongGame :=
  { init_game true true with
    ball_y := 300
    state := GameState.PLAYING
    active_powerups := fun p t =>
      if p = Side.left ∧ t = PowerUpType.SLOW_AI then some 100 else none }

/-- The same state but with the SLOW_AI effect recorded for the RIGHT side. -/
def slow_right_state : PingPongGame :=
  { init_game true true with
    ball_y := 300
    state := GameState.PLAYING
    active_powerups := fun p t =>
      if p = Side.right ∧ t = PowerUpType.SLOW_AI then some 100 else none }

/-- A play state with the AI paddle near the bottom (y = 418, in bounds since
418 <= 500 - 80) and the ball below it.  418 = 210 + 52 * 4 is reachable from
the start position by down steps of the medium AI speed 4. -/
def edge_ai_state : PingPongGame :=
  { init_game true true with right_paddle_y := 418, ball_y := 460, state := GameState.PLAYING }

/-- A game-over state reached with a left SPEED_BOOST still active: collecting
the power-up set `left_paddle_height` to `boost_height` = 110, and the phase
changed to GAME_OVER before the effect expired. -/
def boosted_game_over : PingPongGame :=
  { activate_powerup Side.left PowerUpType.SPEED_BOOST (init_game true true) with
    state := GameState.GAME_OVER }

/-! ## Claim C1 -/

/-- Claim C1 (code behavior at the spec's failing input): with a SLOW_AI
effect recorded for the LEFT side, `move_ai` moves the right paddle by the
full base speed 4, not by max(1, 4 div 2) = 2 as the claim states; with the
effect recorded for the RIGHT side, `move_ai` moves by the halved speed 2,
while the claim states a right-side effect slows nothing.  `move_ai` reads
`active_powerups["right"]`, contradicting the intent documented at
src/2.0.py line 339 (`player == "left"` guard, comment "Slows the AI"). -/
theorem slow_ai_checked_on_right_side :
    (move_ai slow_left_state).right_paddle_y = slow_left_state.right_paddle_y + 4 ∧
    (move_ai slow_right_state).right_paddle_y = slow_right_state.right_paddle_y + 2 := by
  constructor <;> decide

/-! ## Claim C9 (and the amended part of C4) -/

/-- Claim C9: `reset_game` modifies only the scores, rally statistics,
power-up list, active-effects table, ball and phase; both paddles' vertical
positions and heights, the AI speed, the win score, the mode flag and the
difficulty are left exactly as they were. -/
theorem reset_game_frame (g : PingPongGame) (sx sy : Bool) :
    (reset_game sx sy g).left_paddle_y = g.left_paddle_y ∧
    (reset_game sx sy g).left_paddle_height = g.left_paddle_height ∧
    (reset_game sx sy g).right_paddle_y = g.right_paddle_y ∧
    (reset_game sx sy g).right_paddle_height = g.right_paddle_height ∧
    (reset_game sx sy g).ai_speed = g.ai_speed ∧
    (reset_game sx sy g).win_score = g.win_score ∧
    (reset_game sx sy g).is_two_player = g.is_two_player ∧
    (reset_game sx sy g).current_difficulty = g.current_difficulty := by
  simp [reset_game, reset_ball]

/-- Claim C4, amended: entering PLAYING via `reset_game` clears all power-ups
and active effects and enters the PLAYING phase, but leaves both paddles'
heights unchanged rather than restoring them to the base height. -/
theorem reset_game_clears_effects_keeps_heights (g : PingPongGame) (sx sy : Bool) :
    (reset_game sx sy g).state = GameState.PLAYING ∧
    (reset_game sx sy g).powerups = [] ∧
    (∀ p t, (reset_game sx sy g).active_powerups p t = none) ∧
    (reset_game sx sy g).left_paddle_height = g.left_paddle_height ∧
    (reset_game sx sy g).right_paddle_height = g.right_paddle_height := by
  refine ⟨rfl, rfl, fun p t => rfl, rfl, rfl⟩

/-- Claim C4, counterexample: from the reachable game-over state with a left
SPEED_BOOST still active, `reset_game` enters PLAYING with every active effect
cleared, yet the left paddle's height is 110, not the base 80 — so a side can
have no active paddle-size effect while its paddle height differs from base,
and the reset does not leave the paddles at base height. -/
theorem reset_game_keeps_boosted_height :
    (reset_game true true boosted_game_over).state = GameState.PLAYING ∧
    (∀ p t, (reset_game true true boosted_game_over).active_powerups p t = none) ∧
    (reset_game true true boosted_game_over).left_paddle_height = 110 ∧
    (reset_game true true boosted_game_over).left_paddle_height ≠ GameConfig.PADDLE_HEIGHT := by
  have hb : boost_height = 110 := by
    norm_num [boost_height, pyInt, GameConfig.PADDLE_HEIGHT]
  refine ⟨rfl, fun p t => rfl, ?_, ?_⟩ <;>
    simp [reset_game, reset_ball, boosted_game_over, activate_powerup, hb,
      GameConfig.PADDLE_HEIGHT]

/-! ## Claim C6 -/

/-- Claim C6: collecting a FAST_BALL power-up immediately scales both ball
velocity components by 1.3 (with the source's `int()` truncation), for either
receiving side; `update_powerups` never changes the ball velocity (so nothing
is reverted when the effect's countdown expires); and `reset_ball` — run on
every point scored — replaces the velocity with fresh components of magnitude
BALL_INITIAL_SPEED, which is the only thing that undoes the scaling. -/
theorem fast_ball_scaling_permanent (g : PingPongGame) (p : Side) (sx sy : Bool) :
    ((activate_powerup p PowerUpType.FAST_BALL g).ball_speed_x =
        (pyInt (g.ball_speed_x * 1.3) : ℚ) ∧
      (activate_powerup p PowerUpType.FAST_BALL g).ball_speed_y =
        (pyInt (g.ball_speed_y * 1.3) : ℚ)) ∧
    ((update_powerups g).ball_speed_x = g.ball_speed_x ∧
      (update_powerups g).ball_speed_y = g.ball_speed_y) ∧
    (((reset_ball sx sy g).ball_speed_x = (GameConfig.BALL_INITIAL_SPEED : ℚ) ∨
        (reset_ball sx sy g).ball_speed_x = -(GameConfig.BALL_INITIAL_SPEED : ℚ)) ∧
      ((reset_ball sx sy g).ball_speed_y = (GameConfig.BALL_INITIAL_SPEED : ℚ) ∨
        (reset_ball sx sy g).ball_speed_y = -(GameConfig.BALL_INITIAL_SPEED : ℚ))) := by
  refine ⟨⟨rfl, rfl⟩, ⟨rfl, rfl⟩, ?_, ?_⟩ <;> cases sx <;> cases sy <;>
    simp [reset_ball]

/-! ## Claim C7 -/

/-- Claim C7: in one run of the scoring block of `update_ball`, at most one
scoring event occurs — either no score changes, or exactly the left score is
incremented by one, or exactly the right score is incremented by one; the
ball never registers as crossing both boundaries in the same tick. -/
theorem at_most_one_score_per_tick (g : PingPongGame) (sx sy : Bool) :
    ((update_ball_scoring sx sy g).left_score = g.left_score ∧
      (update_ball_scoring sx sy g).right_score = g.right_score) ∨
    ((update_ball_scoring sx sy g).left_score = g.left_score + 1 ∧
      (update_ball_scoring sx sy g).right_score = g.right_score) ∨
    ((update_ball_scoring sx sy g).left_score = g.left_score ∧
      (update_ball_scoring sx sy g).right_score = g.right_score + 1) := by
  by_cases h1 : g.ball_x ≤ 0
  · right; right
    have hx : ((800 : ℤ) ≤ 800 / 2 - 15 / 2 + 15) = False := by decide
    simp [update_ball_scoring, h1, reset_ball, GameConfig.WINDOW_WIDTH,
      GameConfig.BALL_SIZE, GameConfig.WINDOW_HEIGHT, hx]
  · by_cases h2 : GameConfig.WINDOW_WIDTH ≤ g.ball_x + GameConfig.BALL_SIZE
    · right; left
      simp [update_ball_scoring, h1, h2, reset_ball]
    · left
      simp [update_ball_scoring, h1, h2]

/-! ## Claim C8 -/

/-- Claim C8: starting from any win target in [1, 20], `n` increment commands
leave the target at min(current + n, 20) and `n` decrement commands leave it
at max(current - n, 1).  In particular one increment gives min(current+1, 20),
one decrement gives max(current-1, 1), repeated increments beyond 20 stay at
20, and repeated decrements below 1 stay at 1. -/
theorem win_score_clamp (g : PingPongGame) (h1 : 1 ≤ g.win_score)
    (h2 : g.win_score ≤ 20) (n : ℕ) :
    (increment_win_score^[n] g).win_score = min (g.win_score + n) 20 ∧
    (decrement_win_score^[n] g).win_score = max (g.win_score - n) 1 := by
  induction n with
  | zero => simp; omega
  | succ n ih =>
    obtain ⟨ihi, ihd⟩ := ih
    constructor
    · rw [Function.iterate_succ_apply', increment_win_score, ihi]
      push_cast
      omega
    · rw [Function.iterate_succ_apply', decrement_win_score, ihd]
      push_cast
      omega

/-- Witness for `win_score_clamp` at the initial state (win score 5): thirty
increments saturate at 20 and thirty decrements saturate at 1. -/
theorem win_score_clamp_witness :
    (increment_win_score^[30] (init_game true true)).win_score = 20 ∧
    (decrement_win_score^[30] (init_game true true)).win_score = 1 := by
  have h := win_score_clamp (init_game true true) (by decide) (by decide) 30
  refine ⟨?_, ?_⟩
  · rw [h.1]; decide
  · rw [h.2]; decide

/-! ## Claim C10 -/

/-- Claim C10: collecting a power-up whose type is already active for the
receiving side overwrites the remaining countdown with the full 180-frame
duration (it does not add to it), and a second collection re-applies the same
absolute paddle heights as the first, so repeated collections never compound
paddle size or accumulate duration. -/
theorem activate_powerup_overwrite (g : PingPongGame) (p : Side) (t : PowerUpType)
    (d : ℕ) (h : g.active_powerups p t = some d) :
    ((activate_powerup p t g).active_powerups p t = some GameConfig.POWERUP_DURATION) ∧
    ((activate_powerup p t (activate_powerup p t g)).active_powerups p t =
      some GameConfig.POWERUP_DURATION) ∧
    ((activate_powerup p t (activate_powerup p t g)).left_paddle_height =
      (activate_powerup p t g).left_paddle_height) ∧
    ((activate_powerup p t (activate_powerup p t g)).right_paddle_height =
      (activate_powerup p t g).right_paddle_height) := by
  cases t <;> cases p <;> simp [activate_powerup]

/-- Witness for `activate_powerup_overwrite`: a BIG_PADDLE effect already
active on the left side (countdown 180) is overwritten, not stacked, by a
second collection, and the paddle heights agree. -/
theorem activate_powerup_overwrite_witness :
    ((activate_powerup Side.left PowerUpType.BIG_PADDLE
        (activate_powerup Side.left PowerUpType.BIG_PADDLE (init_game true true))).active_powerups
          Side.left PowerUpType.BIG_PADDLE = some GameConfig.POWERUP_DURATION) ∧
    ((activate_powerup Side.left PowerUpType.BIG_PADDLE
        (activate_powerup Side.left PowerUpType.BIG_PADDLE (init_game true true))).left_paddle_height =
      (activate_powerup Side.left PowerUpType.BIG_PADDLE (init_game true true)).left_paddle_height) := by
  have h := activate_powerup_overwrite
    (activate_powerup Side.left PowerUpType.BIG_PADDLE (init_game true true))
    Side.left PowerUpType.BIG_PADDLE GameConfig.POWERUP_DURATION (by decide)
  exact ⟨h.2.1, h.2.2.1⟩

/-! ## Claim C3 -/

/-- Claim C3, counterexample: from the in-bounds state `edge_ai_state`
(AI paddle at y = 418 <= 500 - 80, ball below), one `move_ai` step at the
medium speed 4 puts the paddle at y = 422, which exceeds
playfield_height - paddle_height = 420: the movement step does not clamp, so
the paddle extends past the bottom boundary. -/
theorem ai_move_overshoots_bottom :
    (0 ≤ edge_ai_state.right_paddle_y ∧
      edge_ai_state.right_paddle_y ≤
        GameConfig.WINDOW_HEIGHT - edge_ai_state.right_paddle_height) ∧
    (move_ai edge_ai_state).right_paddle_y = 422 ∧
    GameConfig.WINDOW_HEIGHT - (move_ai edge_ai_state).right_paddle_height <
      (move_ai edge_ai_state).right_paddle_y := by
  refine ⟨by decide, by decide, by decide⟩

/-- Claim C3, amended: the movement steps check the boundary before moving
and do not clamp afterwards; from a pre-move position inside
[0, playfield_height - height], the post-move position lies within
[-(v-1), playfield_height - height + (v-1)], where v is the step size
(PADDLE_SPEED = 10 for the two player paddles, the AI's effective speed for
`move_ai`) — so a paddle can extend at most v-1 pixels past a boundary, and
need not stay exactly inside it. -/
theorem paddle_move_overshoot_bounded (g : PingPongGame) (kW kS kU kD : Bool)
    (hA : 1 ≤ g.ai_speed)
    (hL0 : 0 ≤ g.left_paddle_y)
    (hL1 : g.left_paddle_y ≤ GameConfig.WINDOW_HEIGHT - g.left_paddle_height)
    (hR0 : 0 ≤ g.right_paddle_y)
    (hR1 : g.right_paddle_y ≤ GameConfig.WINDOW_HEIGHT - g.right_paddle_height) :
    (-(GameConfig.PADDLE_SPEED - 1) ≤ (move_player kW kS g).left_paddle_y ∧
      (move_player kW kS g).left_paddle_y ≤
        GameConfig.WINDOW_HEIGHT - g.left_paddle_height + (GameConfig.PADDLE_SPEED - 1)) ∧
    (-(GameConfig.PADDLE_SPEED - 1) ≤ (move_right_player kU kD g).right_paddle_y ∧
      (move_right_player kU kD g).right_paddle_y ≤
        GameConfig.WINDOW_HEIGHT - g.right_paddle_height + (GameConfig.PADDLE_SPEED - 1)) ∧
    (-((ai_current_speed g : ℤ) - 1) ≤ (move_ai g).right_paddle_y ∧
      (move_ai g).right_paddle_y ≤
        GameConfig.WINDOW_HEIGHT - g.right_paddle_height + ((ai_current_speed g : ℤ) - 1)) := by
  have hv : 1 ≤ (ai_current_speed g : ℤ) := by
    have h1 : 1 ≤ ai_current_speed g := by
      unfold ai_current_speed
      split_ifs
      · exact le_max_left 1 _
      · exact hA
    exact_mod_cast h1
  refine ⟨?_, ?_, ?_⟩
  · unfold move_player move_player_down move_player_up
    simp only [GameConfig.WINDOW_HEIGHT, GameConfig.PADDLE_SPEED] at *
    split_ifs <;> simp_all <;> omega
  · unfold move_right_player move_right_player_down move_right_player_up
    simp only [GameConfig.WINDOW_HEIGHT, GameConfig.PADDLE_SPEED] at *
    split_ifs <;> simp_all <;> omega
  · unfold move_ai
    simp only [GameConfig.WINDOW_HEIGHT, GameConfig.PADDLE_SPEED,
      GameConfig.BALL_SIZE] at *
    split_ifs <;> simp_all <;> omega

/-- Witness for `paddle_move_overshoot_bounded` at the initial state (both
paddles at y = 210, heights 80, all keys held). -/
theorem paddle_move_overshoot_bounded_witness :
    (-(GameConfig.PADDLE_SPEED - 1) ≤
        (move_player true true (init_game true true)).left_paddle_y ∧
      (move_player true true (init_game true true)).left_paddle_y ≤
        GameConfig.WINDOW_HEIGHT - (init_game true true).left_paddle_height +
          (GameConfig.PADDLE_SPEED - 1)) ∧
    (-(GameConfig.PADDLE_SPEED - 1) ≤
        (move_right_player true true (init_game true true)).right_paddle_y ∧
      (move_right_player true true (init_game true true)).right_paddle_y ≤
        GameConfig.WINDOW_HEIGHT - (init_game true true).right_paddle_height +
          (GameConfig.PADDLE_SPEED - 1)) ∧
    (-((ai_current_speed (init_game true true) : ℤ) - 1) ≤
        (move_ai (init_game true true)).right_paddle_y ∧
      (move_ai (init_game true true)).right_paddle_y ≤
        GameConfig.WINDOW_HEIGHT - (init_game true true).right_paddle_height +
          ((ai_current_speed (init_game true true) : ℤ) - 1)) :=
  paddle_move_overshoot_bounded (init_game true true) true true true true
    (by decide) (by decide) (by decide) (by decide) (by decide)

/-! ## Claim C2 -/

/-- Projection of the effect countdown through one `update_powerups` call. -/
theorem update_powerups_active (g : PingPongGame) (p : Side) (t : PowerUpType) :
    (update_powerups g).active_powerups p t = tick_effect (g.active_powerups p t) := rfl

/-- Line 345 of `activate_powerup` stores the full duration under the
receiving (side, type) pair whatever the power-up type is. -/
theorem activate_powerup_entry (p : Side) (t : PowerUpType) (g : PingPongGame) :
    (activate_powerup p t g).active_powerups p t = some GameConfig.POWERUP_DURATION := by
  cases t <;> simp [activate_powerup]

/-- An entry with countdown `d` survives `k < d` calls of `update_powerups`,
with remaining countdown `d - k`. -/
theorem active_iter_present (p : Side) (t : PowerUpType) :
    ∀ (k : ℕ) (g : PingPongGame) (d : ℕ), g.active_powerups p t = some d → k < d →
      (update_powerups^[k] g).active_powerups p t = some (d - k) := by
  intro k
  induction k with
  | zero => intro g d h _; simpa using h
  | succ k ih =>
    intro g d h hk
    rw [Function.iterate_succ_apply]
    have h1 : (update_powerups g).active_powerups p t = some (d - 1) := by
      rw [update_powerups_active, h]
      simp only [tick_effect]
      rw [if_neg (by omega)]
    have h2 := ih (update_powerups g) (d - 1) h1 (by omega)
    rw [h2]
    congr 1
    omega

/-- An entry with countdown `k + 1` is gone after exactly `k + 1` calls of
`update_powerups`. -/
theorem active_iter_removed (p : Side) (t : PowerUpType) (g : PingPongGame) (k : ℕ)
    (h : g.active_powerups p t = some (k + 1)) :
    (update_powerups^[k + 1] g).active_powerups p t = none := by
  have h1 : (update_powerups^[k] g).active_powerups p t = some 1 := by
    rw [show (1 : ℕ) = k + 1 - k by omega]
    exact active_iter_present p t k g (k + 1) h (by omega)
  rw [Function.iterate_succ_apply', update_powerups_active, h1]
  simp [tick_effect]

/-- When a SPEED_BOOST or BIG_PADDLE entry of side `p` expires in the current
`update_powerups` call, that side's paddle height is set back to the base
height (src/2.0.py lines 356-364). -/
theorem expired_sets_base (g : PingPongGame) (p : Side) (t : PowerUpType)
    (ht : t = PowerUpType.SPEED_BOOST ∨ t = PowerUpType.BIG_PADDLE)
    (h : g.active_powerups p t = some 1) :
    side_height (update_powerups g) p = GameConfig.PADDLE_HEIGHT := by
  have hexp : expired_size_effect g p = true := by
    rcases ht with rfl | rfl <;> simp [expired_size_effect, will_expire, h]
  cases p <;> simp [side_height, update_powerups, hexp]

/-- Claim C2: an effect activated by `activate_powerup` starts with the full
POWERUP_DURATION = 180 countdown; its (side, type) entry is still present
after any `k < 180` subsequent `update_powerups` ticks (with remaining
countdown 180 - k) and is removed at exactly the 180th tick; for the two
paddle-size effect types the receiving side's paddle height is the base
height at that same tick. -/
theorem powerup_duration_exact (g : PingPongGame) (p : Side) (t : PowerUpType) :
    ((activate_powerup p t g).active_powerups p t = some GameConfig.POWERUP_DURATION) ∧
    (∀ k : ℕ, k < GameConfig.POWERUP_DURATION →
      (update_powerups^[k] (activate_powerup p t g)).active_powerups p t =
        some (GameConfig.POWERUP_DURATION - k)) ∧
    ((update_powerups^[GameConfig.POWERUP_DURATION]
        (activate_powerup p t g)).active_powerups p t = none) ∧
    ((t = PowerUpType.SPEED_BOOST ∨ t = PowerUpType.BIG_PADDLE) →
      side_height
        (update_powerups^[GameConfig.POWERUP_DURATION] (activate_powerup p t g)) p =
        GameConfig.PADDLE_HEIGHT) := by
  have hact := activate_powerup_entry p t g
  refine ⟨hact, ?_, ?_, ?_⟩
  · intro k hk
    exact active_iter_present p t k _ _ hact hk
  · have h179 : (activate_powerup p t g).active_powerups p t = some (179 + 1) := hact
    exact active_iter_removed p t _ 179 h179
  · intro ht
    have h1 : (update_powerups^[179] (activate_powerup p t g)).active_powerups p t =
        some 1 := by
      rw [show (1 : ℕ) = GameConfig.POWERUP_DURATION - 179 by decide]
      exact active_iter_present p t 179 _ _ hact (by decide)
    rw [show GameConfig.POWERUP_DURATION = 179 + 1 by decide,
      Function.iterate_succ_apply']
    exact expired_sets_base _ p t ht h1

/-- Witness for `powerup_duration_exact`: a SPEED_BOOST collected by the left
side at the initial state is still active (countdown 173) after 7 ticks, is
gone after 180 ticks, and the left paddle is back at the base height then. -/
theorem powerup_duration_exact_witness :
    ((update_powerups^[7]
        (activate_powerup Side.left PowerUpType.SPEED_BOOST (init_game true true))).active_powerups
          Side.left PowerUpType.SPEED_BOOST = some 173) ∧
    ((update_powerups^[180]
        (activate_powerup Side.left PowerUpType.SPEED_BOOST (init_game true true))).active_powerups
          Side.left PowerUpType.SPEED_BOOST = none) ∧
    side_height
      (update_powerups^[180]
        (activate_powerup Side.left PowerUpType.SPEED_BOOST (init_game true true)))
      Side.left = GameConfig.PADDLE_HEIGHT := by
  have h := powerup_duration_exact (init_game true true) Side.left PowerUpType.SPEED_BOOST
  refine ⟨?_, h.2.2.1, h.2.2.2 (Or.inl rfl)⟩
  have h7 := h.2.1 7 (by decide)
  rw [show some (173 : ℕ) = some (GameConfig.POWERUP_DURATION - 7) by decide]
  exact h7

/-! ## Claim C5 -/

/-- Claim C5: after the integration step of `update_ball` (position advanced
by velocity, then the speed clamp), the velocity's magnitude is at most
MAX_BALL_SPEED; the clamped velocity is always a positive scalar multiple of
the incoming velocity (direction preserved, never a per-axis clamp), equal to
the rescale by MAX_BALL_SPEED / magnitude when the magnitude exceeded the cap
and unchanged otherwise, and the position advanced by exactly the incoming
velocity. -/
theorem ball_speed_capped_after_integration (x y vx vy : ℝ) :
    speed_magnitude ((integrate_ball x y vx vy).2.1) ((integrate_ball x y vx vy).2.2) ≤
      (GameConfig.MAX_BALL_SPEED : ℝ) ∧
    (∃ c : ℝ, 0 < c ∧ (integrate_ball x y vx vy).2.1 = c * vx ∧
      (integrate_ball x y vx vy).2.2 = c * vy) ∧
    (speed_magnitude vx vy > (GameConfig.MAX_BALL_SPEED : ℝ) →
      (integrate_ball x y vx vy).2 =
        (vx * ((GameConfig.MAX_BALL_SPEED : ℝ) / speed_magnitude vx vy),
         vy * ((GameConfig.MAX_BALL_SPEED : ℝ) / speed_magnitude vx vy))) ∧
    (¬ speed_magnitude vx vy > (GameConfig.MAX_BALL_SPEED : ℝ) →
      (integrate_ball x y vx vy).2 = (vx, vy)) ∧
    (integrate_ball x y vx vy).1 = (x + vx, y + vy) := by
  have hM : (GameConfig.MAX_BALL_SPEED : ℝ) = 15 := by
    norm_num [GameConfig.MAX_BALL_SPEED]
  by_cases h : speed_magnitude vx vy > (GameConfig.MAX_BALL_SPEED : ℝ)
  · have hm0 : 0 < speed_magnitude vx vy := by
      rw [hM] at h; linarith
    have hclamp : clamp_ball_speed vx vy =
        (vx * ((GameConfig.MAX_BALL_SPEED : ℝ) / speed_magnitude vx vy),
         vy * ((GameConfig.MAX_BALL_SPEED : ℝ) / speed_magnitude vx vy)) := by
      rw [clamp_ball_speed, if_pos h]
    have hsum : vx ^ 2 + vy ^ 2 = speed_magnitude vx vy ^ 2 := by
      rw [speed_magnitude, Real.sq_sqrt (by positivity)]
    have hmag : speed_magnitude
        (vx * ((GameConfig.MAX_BALL_SPEED : ℝ) / speed_magnitude vx vy))
        (vy * ((GameConfig.MAX_BALL_SPEED : ℝ) / speed_magnitude vx vy)) =
        (GameConfig.MAX_BALL_SPEED : ℝ) := by
      rw [hM]
      rw [speed_magnitude,
        show (vx * (15 / speed_magnitude vx vy)) ^ 2 +
            (vy * (15 / speed_magnitude vx vy)) ^ 2 =
          (vx ^ 2 + vy ^ 2) * (15 / speed_magnitude vx vy) ^ 2 by ring,
        hsum,
        show speed_magnitude vx vy ^ 2 * (15 / speed_magnitude vx vy) ^ 2 = 15 ^ 2 by
          field_simp,
        Real.sqrt_sq (by norm_num : (0 : ℝ) ≤ 15)]
    refine ⟨?_, ?_, ?_, ?_, rfl⟩
    · show speed_magnitude (clamp_ball_speed vx vy).1 (clamp_ball_speed vx vy).2 ≤ _
      rw [hclamp]
      rw [hmag]
    · refine ⟨(GameConfig.MAX_BALL_SPEED : ℝ) / speed_magnitude vx vy, ?_, ?_, ?_⟩
      · rw [hM]; positivity
      · show (clamp_ball_speed vx vy).1 = _
        rw [hclamp]; ring
      · show (clamp_ball_speed vx vy).2 = _
        rw [hclamp]; ring
    · intro _
      exact hclamp
    · intro hc
      exact absurd h hc
  · have hclamp : clamp_ball_speed vx vy = (vx, vy) := by
      rw [clamp_ball_speed, if_neg h]
    refine ⟨?_, ⟨1, by norm_num, ?_, ?_⟩, ?_, ?_, rfl⟩
    · show speed_magnitude (clamp_ball_speed vx vy).1 (clamp_ball_speed vx vy).2 ≤ _
      rw [hclamp]
      exact not_lt.mp h
    · show (clamp_ball_speed vx vy).1 = _
      rw [hclamp]; ring
    · show (clamp_ball_speed vx vy).2 = _
      rw [hclamp]; ring
    · intro hc
      exact absurd hc h
    · intro _
      exact hclamp

/-- Witness for `ball_speed_capped_after_integration` at velocity (20, 0),
whose magnitude 20 exceeds the cap: the components are rescaled by
MAX_BALL_SPEED / magnitude. -/
theorem ball_speed_capped_after_integration_witness :
    (integrate_ball 0 0 20 0).2 =
      ((20 : ℝ) * ((GameConfig.MAX_BALL_SPEED : ℝ) / speed_magnitude 20 0),
       (0 : ℝ) * ((GameConfig.MAX_BALL_SPEED : ℝ) / speed_magnitude 20 0)) := by
  have hm : speed_magnitude (20 : ℝ) 0 = 20 := by
    rw [speed_magnitude, show ((20 : ℝ) ^ 2 + (0 : ℝ) ^ 2) = 20 ^ 2 by norm_num,
      Real.sqrt_sq (by norm_num : (0 : ℝ) ≤ 20)]
  exact (ball_speed_capped_after_integration 0 0 20 0).2.2.1
    (by rw [hm]; norm_num [GameConfig.MAX_BALL_SPEED])

end SnapPong
